import Mathlib

/-!
Verification of the RenderPipeline core (`rpcore/render_pipeline.py` and
`rpcore/plugins/color_correction/sharpen_stage.py`).

The stateful parts of `RenderPipeline` are embedded as explicit state
passing: the per-node, per-pass tag/visibility state is a function
`PipeState`, and each Python method becomes a Lean function from state to
state.  Machine integers are `Int`/`Nat`; Python floats (the resolution
scale) are modelled as exact rationals `ℚ`; fallible operations return
`Option`.
-/

/-- Render passes.  Modelled from the spec: `Effect.PASSES` itself lives in
`rpcore/effect.py`, which is not among the sources; the spec lists the
per-pass booleans `render_gbuffer`, `render_forward`,
`render_forward_prepass`, `render_shadow`, `render_voxelize`,
`render_envmap`. -/
inductive RPass
  | gbuffer
  | forward
  | forward_prepass
  | shadow
  | voxelize
  | envmap
deriving DecidableEq

/-- An effect, as observed by `_internal_set_effect`: the resolved
`render_<pass>` option table, the per-pass compiled shader objects
(`get_shader_obj`, shader handles modelled as `Nat`), and the effect id. -/
structure Effect where
  options : RPass → Bool
  shaders : RPass → Nat
  effect_id : Nat

/-- The fixed pass ordering iterated by `_internal_set_effect`
(`for i, stage in enumerate(Effect.PASSES)`).  Modelled from the spec (see
`RPass`). -/
def Effect.PASSES : List RPass :=
  [RPass.gbuffer, RPass.forward, RPass.forward_prepass, RPass.shadow,
   RPass.voxelize, RPass.envmap]

/-- Index of a pass in `Effect.PASSES` (the `i` of the `enumerate` loop). -/
def passIndex : RPass → Nat
  | RPass.gbuffer => 0
  | RPass.forward => 1
  | RPass.forward_prepass => 2
  | RPass.shadow => 3
  | RPass.voxelize => 4
  | RPass.envmap => 5

/-- Per-node, per-pass state: whether the node is shown under the pass
visibility mask (`show_through` / `hide`), and the shader applied for that
pass together with its sort (`set_shader` for gbuffer,
`tag_mgr.apply_state` otherwise). -/
@[ext] structure PassSlot where
  visible : Bool
  shader : Option (Nat × Int)
deriving DecidableEq

/-- The scene state tracked by the embedding: a slot for every node
(nodes named by `Nat`) and every pass. -/
def PipeState := Nat → RPass → PassSlot

/-- Update the slot of one node under one pass, leaving all others
untouched. -/
def updSlot (s : PipeState) (node : Nat) (p : RPass) (f : PassSlot → PassSlot) :
    PipeState :=
  fun m q => if m = node ∧ q = p then f (s m q) else s m q

/-- Model of `nodepath.hide(self.tag_mgr.get_mask(stage))`. -/
def nodeHide (s : PipeState) (node : Nat) (p : RPass) : PipeState :=
  updSlot s node p (fun sl => { sl with visible := false })

/-- Model of `nodepath.set_shader(shader, sort)` for the gbuffer pass, and
`tag_mgr.apply_state(stage, nodepath, shader, ..., sort)` for the others:
both record the compiled shader with its sort in the slot of that pass. -/
def nodeApplyShader (s : PipeState) (node : Nat) (p : RPass) (shader : Nat)
    (sort : Int) : PipeState :=
  updSlot s node p (fun sl => { sl with shader := some (shader, sort) })

/-- Model of `nodepath.show_through(self.tag_mgr.get_mask(stage))`. -/
def nodeShowThrough (s : PipeState) (node : Nat) (p : RPass) : PipeState :=
  updSlot s node p (fun sl => { sl with visible := true })

/-- Arguments of one `set_effect` call: the nodepath, the effect source,
the options argument (opaque token), and the caller sort. -/
structure EffectArgs where
  node : Nat
  effect_src : String
  options : Nat
  sort : Int
deriving DecidableEq

/-- Model of `Effect.load(effect_src, options)`: modelled from the spec as an
arbitrary deterministic, fallible compile function (the `Effect` class is
not among the sources). -/
abbrev LoadFn := String → Nat → Option Effect

/-- One iteration of the pass loop of `_internal_set_effect`: given the
enumerated pair `(i, stage)`, hide the node under the pass mask when the
pass is disabled in the effect, otherwise apply the pass shader (at fixed
sort 25 for the gbuffer pass, at `25 + 10 * i + sort` otherwise) and show
the node through the pass mask. -/
def passStep (eff : Effect) (e : EffectArgs) (st : PipeState)
    (pr : Nat × RPass) : PipeState :=
  if !eff.options pr.2 then
    nodeHide st e.node pr.2
  else
    nodeShowThrough
      (nodeApplyShader st e.node pr.2 (eff.shaders pr.2)
        (if pr.2 = RPass.gbuffer then 25 else 25 + 10 * (pr.1 : Int) + e.sort))
      e.node pr.2

/-- The full pass loop of `_internal_set_effect`. -/
def applyObjectPasses (eff : Effect) (e : EffectArgs) (s : PipeState) :
    PipeState :=
  Effect.PASSES.enum.foldl (passStep eff e) s

/-- Error message of `_internal_set_effect` for a failed `Effect.load`. -/
def load_failed_error : String := "Could not apply effect"

/-- Error message for requesting both deferred and forward rendering. -/
def forward_deferred_error : String :=
  "You cannot render an object forward and deferred at the same time! Either use render_gbuffer or use render_forward, but not both."

/-- Error message for requesting the forward prepass without forward
rendering. -/
def prepass_error : String :=
  "render_forward_prepass specified, but not render_forward!"

/-- Model of `RenderPipeline._internal_set_effect`: load the effect (an error and no
state change if loading fails), run the pass loop, then check the two
option conflicts, which only log errors. -/
def internal_set_effect (load : LoadFn) (s : PipeState) (e : EffectArgs) :
    PipeState × List String :=
  match load e.effect_src e.options with
  | none => (s, [load_failed_error])
  | some eff =>
    let s' := applyObjectPasses eff e s
    let errs1 : List String :=
      if eff.options RPass.gbuffer && eff.options RPass.forward then
        [forward_deferred_error]
      else []
    let errs2 : List String :=
      if eff.options RPass.forward_prepass && !eff.options RPass.forward then
        [prepass_error]
      else []
    (s', errs1 ++ errs2)

lemma passes_enum :
    Effect.PASSES.enum =
      [(0, RPass.gbuffer), (1, RPass.forward), (2, RPass.forward_prepass),
       (3, RPass.shadow), (4, RPass.voxelize), (5, RPass.envmap)] := rfl

lemma passStep_ne (eff : Effect) (e : EffectArgs) (st : PipeState) (i : Nat)
    (stage : RPass) (n : Nat) (p : RPass) (h : ¬p = stage) :
    passStep eff e st (i, stage) n p = st n p := by
  unfold passStep nodeHide nodeShowThrough nodeApplyShader updSlot
  cases hop : eff.options stage <;> simp [hop, h]

lemma passStep_self (eff : Effect) (e : EffectArgs) (st : PipeState) (i : Nat)
    (n : Nat) (p : RPass) :
    passStep eff e st (i, p) n p =
      if n = e.node then
        (if eff.options p then
          ⟨true, some (eff.shaders p,
            if p = RPass.gbuffer then 25 else 25 + 10 * (i : Int) + e.sort)⟩
        else ⟨false, (st n p).shader⟩)
      else st n p := by
  unfold passStep nodeHide nodeShowThrough nodeApplyShader updSlot
  cases hop : eff.options p <;> by_cases hn : n = e.node <;> simp [hop, hn]

/-- Pointwise evaluation of the pass loop: each pass occurs exactly once in
`Effect.PASSES`, so the slot of `(e.node, p)` is written once, and slots of
other nodes are untouched. -/
lemma applyObjectPasses_eval (eff : Effect) (e : EffectArgs) (s : PipeState)
    (n : Nat) (p : RPass) :
    applyObjectPasses eff e s n p =
      if n = e.node then
        (if eff.options p then
          ⟨true, some (eff.shaders p,
            if p = RPass.gbuffer then 25
            else 25 + 10 * (passIndex p : Int) + e.sort)⟩
        else ⟨false, (s n p).shader⟩)
      else s n p := by
  cases p <;>
    simp [applyObjectPasses, passes_enum, List.foldl, passStep_ne,
      passStep_self, passIndex]

/-- Pointwise evaluation of `_internal_set_effect` when the effect loads. -/
lemma internal_set_effect_eval (load : LoadFn) (s : PipeState) (e : EffectArgs)
    (eff : Effect) (h : load e.effect_src e.options = some eff) (n : Nat)
    (p : RPass) :
    (internal_set_effect load s e).1 n p =
      if n = e.node then
        (if eff.options p then
          ⟨true, some (eff.shaders p,
            if p = RPass.gbuffer then 25
            else 25 + 10 * (passIndex p : Int) + e.sort)⟩
        else ⟨false, (s n p).shader⟩)
      else s n p := by
  simp [internal_set_effect, h, applyObjectPasses_eval]

/-- The state transformer of one `_internal_set_effect` call (errors
dropped). -/
def stepState (load : LoadFn) (s : PipeState) (e : EffectArgs) : PipeState :=
  (internal_set_effect load s e).1

/-- Model of `RenderPipeline._apply_custom_shaders` applied to an explicit starting
state: re-runs `_internal_set_effect` on every recorded argument tuple, in
original call order. -/
def apply_custom_shaders (load : LoadFn) (s : PipeState)
    (log : List EffectArgs) : PipeState :=
  log.foldl (stepState load) s

/-- Model of `tag_mgr.cleanup_states()`: drops all tag states (the shaders applied
through `tag_mgr.apply_state`, i.e. every pass except gbuffer, whose shader
is node-local via `set_shader`); visibility masks are untouched. -/
def cleanup_states (s : PipeState) : PipeState :=
  fun n p =>
    { visible := (s n p).visible,
      shader := if p = RPass.gbuffer then (s n p).shader else none }

/-- State of a fresh scene: no shader applied anywhere. -/
def initial_state : PipeState := fun _ _ => { visible := true, shader := none }

/-- The pipeline state relevant to effect binding: the replay log
`_applied_effects` and the scene state. -/
structure RenderPipelineState where
  applied_effects : List EffectArgs
  state : PipeState

/-- Model of `RenderPipeline.set_effect`: append the argument tuple to the replay
log, then apply it via `_internal_set_effect`. -/
def set_effect (load : LoadFn) (P : RenderPipelineState) (e : EffectArgs) :
    RenderPipelineState :=
  { applied_effects := P.applied_effects ++ [e],
    state := stepState load P.state e }

/-- Model of `RenderPipeline.reload_shaders`: clean up all tag states, recompile the
stage shaders (not modelled: it does not touch per-node state), then
re-apply every recorded `set_effect` call via `_apply_custom_shaders`. -/
def reload_shaders (load : LoadFn) (P : RenderPipelineState) :
    RenderPipelineState :=
  { applied_effects := P.applied_effects,
    state := apply_custom_shaders load (cleanup_states P.state)
      P.applied_effects }

/-- Last-write accumulator: the value of the last entry of `l` on which `f`
fires, if any. -/
def lastWrite {α β : Type} (f : β → Option α) (l : List β) : Option α :=
  l.foldl (fun acc e => match f e with | some v => some v | none => acc) none

lemma foldl_lastWrite {α β : Type} (f : β → Option α) (l : List β)
    (a : Option α) :
    l.foldl (fun acc e => match f e with | some v => some v | none => acc) a =
      match lastWrite f l with | some v => some v | none => a := by
  induction l generalizing a with
  | nil => rfl
  | cons e t ih =>
    rw [List.foldl_cons, ih]
    have h2 : lastWrite f (e :: t) =
        match lastWrite f t with
        | some v => some v
        | none => match f e with | some v => some v | none => none := by
      show List.foldl _ _ t = _
      rw [ih]
    rw [h2]
    cases lastWrite f t <;> cases f e <;> rfl

lemma lastWrite_cons {α β : Type} (f : β → Option α) (e : β) (t : List β) :
    lastWrite f (e :: t) =
      match lastWrite f t with | some v => some v | none => f e := by
  have h2 : lastWrite f (e :: t) =
      match lastWrite f t with
      | some v => some v
      | none => match f e with | some v => some v | none => none := by
    show List.foldl _ _ t = _
    rw [foldl_lastWrite]
  rw [h2]
  cases lastWrite f t <;> cases f e <;> rfl

/-- The effect written to node `n` by one log entry, if it loads and names
`n`. -/
def loadedWrite (load : LoadFn) (n : Nat) (e : EffectArgs) : Option Effect :=
  match load e.effect_src e.options with
  | none => none
  | some eff => if n = e.node then some eff else none

/-- The shader-and-sort written to slot `(n, p)` by one log entry, if it
loads, names `n` and enables pass `p`. -/
def shaderWrite (load : LoadFn) (n : Nat) (p : RPass) (e : EffectArgs) :
    Option (Nat × Int) :=
  match load e.effect_src e.options with
  | none => none
  | some eff =>
    if n = e.node then
      (if eff.options p then
        some (eff.shaders p,
          if p = RPass.gbuffer then 25
          else 25 + 10 * (passIndex p : Int) + e.sort)
      else none)
    else none

lemma stepState_visible (load : LoadFn) (s : PipeState) (e : EffectArgs)
    (n : Nat) (p : RPass) :
    (stepState load s e n p).visible =
      match loadedWrite load n e with
      | some eff => eff.options p
      | none => (s n p).visible := by
  unfold stepState loadedWrite
  cases h : load e.effect_src e.options with
  | none => simp [internal_set_effect, h]
  | some eff =>
    rw [internal_set_effect_eval load s e eff h]
    by_cases hn : n = e.node <;> cases hop : eff.options p <;> simp [hn, hop]

lemma stepState_shader (load : LoadFn) (s : PipeState) (e : EffectArgs)
    (n : Nat) (p : RPass) :
    (stepState load s e n p).shader =
      match shaderWrite load n p e with
      | some v => some v
      | none => (s n p).shader := by
  unfold stepState shaderWrite
  cases h : load e.effect_src e.options with
  | none => simp [internal_set_effect, h]
  | some eff =>
    rw [internal_set_effect_eval load s e eff h]
    by_cases hn : n = e.node <;> cases hop : eff.options p <;> simp [hn, hop]

/-- Visibility after a replay is the visibility written by the last log
entry that loads and names the node, and the starting visibility if there
is none. -/
lemma apply_custom_shaders_visible (load : LoadFn) (log : List EffectArgs) :
    ∀ (s : PipeState) (n : Nat) (p : RPass),
      (apply_custom_shaders load s log n p).visible =
        match lastWrite (loadedWrite load n) log with
        | some eff => eff.options p
        | none => (s n p).visible := by
  induction log with
  | nil => intro s n p; rfl
  | cons e t ih =>
    intro s n p
    have h1 : apply_custom_shaders load s (e :: t) =
        apply_custom_shaders load (stepState load s e) t := rfl
    rw [h1, ih, lastWrite_cons]
    cases hlt : lastWrite (loadedWrite load n) t with
    | some eff => rfl
    | none =>
      rw [stepState_visible]

/-- The applied shader after a replay is the one written by the last log
entry that loads, names the node and enables the pass, and the starting
shader if there is none (a `hide` never clears a previously applied
shader). -/
lemma apply_custom_shaders_shader (load : LoadFn) (log : List EffectArgs) :
    ∀ (s : PipeState) (n : Nat) (p : RPass),
      (apply_custom_shaders load s log n p).shader =
        match lastWrite (shaderWrite load n p) log with
        | some v => some v
        | none => (s n p).shader := by
  induction log with
  | nil => intro s n p; rfl
  | cons e t ih =>
    intro s n p
    have h1 : apply_custom_shaders load s (e :: t) =
        apply_custom_shaders load (stepState load s e) t := rfl
    rw [h1, ih, lastWrite_cons]
    cases hlt : lastWrite (shaderWrite load n p) t with
    | some v => rfl
    | none =>
      rw [stepState_shader]

/-- Replaying the log over the cleaned-up state reproduces exactly the
state the log had produced from the initial state. -/
lemma replay_preserves (load : LoadFn) (log : List EffectArgs) :
    apply_custom_shaders load
        (cleanup_states (apply_custom_shaders load initial_state log)) log =
      apply_custom_shaders load initial_state log := by
  funext n p
  apply PassSlot.ext
  · rw [apply_custom_shaders_visible, apply_custom_shaders_visible]
    cases hlw : lastWrite (loadedWrite load n) log with
    | some eff => rfl
    | none =>
      show (cleanup_states (apply_custom_shaders load initial_state log) n
        p).visible = _
      unfold cleanup_states
      rw [apply_custom_shaders_visible, hlw]
  · rw [apply_custom_shaders_shader, apply_custom_shaders_shader]
    cases hlw : lastWrite (shaderWrite load n p) log with
    | some v => rfl
    | none =>
      show (cleanup_states (apply_custom_shaders load initial_state log) n
        p).shader = _
      unfold cleanup_states
      rw [apply_custom_shaders_shader, hlw]
      simp [initial_state]

/-- C2: after `reload_shaders`, every entry of the replay log
(`_applied_effects`) is re-applied in original call order, so the final
per-node, per-pass (visibility, shader, sort) state equals the state before
the reload, provided that state was itself produced by the logged
`set_effect` calls from the initial scene state; the log is unchanged. -/
theorem c2_reload_shaders_replays_log (load : LoadFn) (P : RenderPipelineState)
    (h : P.state = apply_custom_shaders load initial_state P.applied_effects) :
    (reload_shaders load P).state = P.state ∧
      (reload_shaders load P).applied_effects = P.applied_effects := by
  constructor
  · show apply_custom_shaders load (cleanup_states P.state)
      P.applied_effects = P.state
    rw [h, replay_preserves]
  · rfl

def c2Effect : Effect :=
  ⟨fun p => decide (p = RPass.gbuffer), fun _ => 3, 1⟩

def c2Load : LoadFn := fun _ _ => some c2Effect

def c2Args : EffectArgs := ⟨0, "effects/default.yaml", 0, -10⟩

def c2P : RenderPipelineState :=
  ⟨[c2Args], apply_custom_shaders c2Load initial_state [c2Args]⟩

/-- Witness for C2 at a concrete one-entry log. -/
theorem c2_reload_shaders_replays_log_witness :
    (reload_shaders c2Load c2P).state = c2P.state ∧
      (reload_shaders c2Load c2P).applied_effects = c2P.applied_effects :=
  c2_reload_shaders_replays_log c2Load c2P rfl

/-- C3: applying a loaded effect walks all passes of the fixed ordering;
a pass disabled in the options hides the node under that pass mask (keeping
any previously applied shader), an enabled pass binds the pass shader at
sort `25 + 10 * passIndex + callerSort` and shows the node through the pass
mask — except that the gbuffer pass is always bound at the fixed sort 25. -/
theorem c3_pass_binding_semantics (load : LoadFn) (s : PipeState)
    (e : EffectArgs) (eff : Effect)
    (h : load e.effect_src e.options = some eff) (p : RPass) :
    (internal_set_effect load s e).1 e.node p =
      if eff.options p then
        ⟨true, some (eff.shaders p,
          if p = RPass.gbuffer then 25
          else 25 + 10 * (passIndex p : Int) + e.sort)⟩
      else ⟨false, (s e.node p).shader⟩ := by
  rw [internal_set_effect_eval load s e eff h]
  simp

def c3Effect : Effect :=
  ⟨fun p => decide (p = RPass.shadow), fun _ => 5, 2⟩

def c3Load : LoadFn := fun _ _ => some c3Effect

def c3Args : EffectArgs := ⟨4, "effects/skybox.yaml", 0, 1000⟩

/-- Witness for C3: the shadow pass (index 3) is bound at sort
`25 + 10 * 3 + 1000` and shown, the disabled envmap pass is hidden. -/
theorem c3_pass_binding_semantics_witness :
    (internal_set_effect c3Load initial_state c3Args).1 c3Args.node
        RPass.shadow = ⟨true, some (5, 25 + 10 * 3 + 1000)⟩ ∧
      (internal_set_effect c3Load initial_state c3Args).1 c3Args.node
        RPass.envmap = ⟨false, none⟩ := by
  have h1 := c3_pass_binding_semantics c3Load initial_state c3Args c3Effect
    rfl RPass.shadow
  have h2 := c3_pass_binding_semantics c3Load initial_state c3Args c3Effect
    rfl RPass.envmap
  constructor
  · rw [h1]; simp [c3Effect, passIndex, c3Args]
  · rw [h2]; simp [c3Effect, initial_state]

def c1Effect : Effect :=
  ⟨fun p => decide (p = RPass.gbuffer) || decide (p = RPass.forward),
   fun _ => 7, 3⟩

def c1Load : LoadFn := fun _ _ => some c1Effect

def c1Args : EffectArgs := ⟨2, "both.yaml", 0, 30⟩

/-- C1 counterexample: for an effect with `render_gbuffer = true` and
`render_forward = true`, `_internal_set_effect` logs the conflict error,
but the forward pass is NOT disabled in the applied state: the node stays
visible under the forward pass mask with the forward shader bound. -/
theorem c1_counterexample :
    forward_deferred_error ∈
        (internal_set_effect c1Load initial_state c1Args).2 ∧
      ((internal_set_effect c1Load initial_state c1Args).1 2
          RPass.forward).visible = true ∧
      ((internal_set_effect c1Load initial_state c1Args).1 2
          RPass.forward).shader = some (7, 25 + 10 * 1 + 30) := by
  refine ⟨?_, ?_, ?_⟩ <;>
    simp [internal_set_effect, c1Load, c1Effect, c1Args,
      applyObjectPasses_eval, passIndex]

/-- C1 amended: when both deferred and forward rendering are requested,
`_internal_set_effect` logs the error but applies BOTH passes — the checks
run only after the pass loop has already bound the node under the gbuffer
and forward masks; no precedence is enforced and nothing is disabled. -/
theorem c1_both_passes_amended (load : LoadFn) (s : PipeState)
    (e : EffectArgs) (eff : Effect)
    (h : load e.effect_src e.options = some eff)
    (hg : eff.options RPass.gbuffer = true)
    (hf : eff.options RPass.forward = true) :
    forward_deferred_error ∈ (internal_set_effect load s e).2 ∧
      (internal_set_effect load s e).1 e.node RPass.forward =
        ⟨true, some (eff.shaders RPass.forward, 25 + 10 * 1 + e.sort)⟩ ∧
      (internal_set_effect load s e).1 e.node RPass.gbuffer =
        ⟨true, some (eff.shaders RPass.gbuffer, 25)⟩ := by
  refine ⟨?_, ?_, ?_⟩
  · simp [internal_set_effect, h, hg, hf]
  · rw [internal_set_effect_eval load s e eff h]
    simp [hf, passIndex]
  · rw [internal_set_effect_eval load s e eff h]
    simp [hg]

/-- Witness for the amended C1 at a concrete effect. -/
theorem c1_both_passes_amended_witness :
    forward_deferred_error ∈
        (internal_set_effect c1Load initial_state c1Args).2 ∧
      (internal_set_effect c1Load initial_state c1Args).1 c1Args.node
          RPass.forward =
        ⟨true, some (c1Effect.shaders RPass.forward, 25 + 10 * 1 + c1Args.sort)⟩ ∧
      (internal_set_effect c1Load initial_state c1Args).1 c1Args.node
          RPass.gbuffer =
        ⟨true, some (c1Effect.shaders RPass.gbuffer, 25)⟩ :=
  c1_both_passes_amended c1Load initial_state c1Args c1Effect rfl rfl rfl

def c6Effect : Effect :=
  ⟨fun p => decide (p = RPass.forward_prepass), fun _ => 9, 4⟩

def c6Load : LoadFn := fun _ _ => some c6Effect

def c6Args : EffectArgs := ⟨3, "prepass.yaml", 0, 30⟩

/-- C6 counterexample: for an effect with `render_forward_prepass = true`
and `render_forward = false`, `_internal_set_effect` logs the error, but
the prepass is NOT disabled: the node is bound and shown under the
forward-prepass pass. -/
theorem c6_counterexample :
    prepass_error ∈ (internal_set_effect c6Load initial_state c6Args).2 ∧
      ((internal_set_effect c6Load initial_state c6Args).1 3
          RPass.forward_prepass).visible = true ∧
      ((internal_set_effect c6Load initial_state c6Args).1 3
          RPass.forward_prepass).shader = some (9, 25 + 10 * 2 + 30) := by
  refine ⟨?_, ?_, ?_⟩ <;>
    simp [internal_set_effect, c6Load, c6Effect, c6Args,
      applyObjectPasses_eval, passIndex]

/-- C6 amended: requesting the forward prepass without forward rendering
logs the error, but the prepass stays applied — the check runs after the
pass loop has already bound the node under the forward-prepass mask. -/
theorem c6_prepass_amended (load : LoadFn) (s : PipeState) (e : EffectArgs)
    (eff : Effect) (h : load e.effect_src e.options = some eff)
    (hp : eff.options RPass.forward_prepass = true)
    (hf : eff.options RPass.forward = false) :
    prepass_error ∈ (internal_set_effect load s e).2 ∧
      (internal_set_effect load s e).1 e.node RPass.forward_prepass =
        ⟨true, some (eff.shaders RPass.forward_prepass,
          25 + 10 * 2 + e.sort)⟩ := by
  constructor
  · simp [internal_set_effect, h, hp, hf]
  · rw [internal_set_effect_eval load s e eff h]
    simp [hp, passIndex]

/-- Witness for the amended C6 at a concrete effect. -/
theorem c6_prepass_amended_witness :
    prepass_error ∈ (internal_set_effect c6Load initial_state c6Args).2 ∧
      (internal_set_effect c6Load initial_state c6Args).1 c6Args.node
          RPass.forward_prepass =
        ⟨true, some (c6Effect.shaders RPass.forward_prepass,
          25 + 10 * 2 + c6Args.sort)⟩ :=
  c6_prepass_amended c6Load initial_state c6Args c6Effect rfl rfl rfl

/-- C8: `set_effect` appends its argument tuple to the replay log
unconditionally — also when `Effect.load` fails, in which case only the
error is recorded and the state is unchanged; the log is never shortened
(`reload_shaders` keeps it intact), and a reload re-attempts every logged
entry, failed ones included. -/
theorem c8_replay_log_monotone (load : LoadFn) (P : RenderPipelineState)
    (e : EffectArgs) :
    (set_effect load P e).applied_effects = P.applied_effects ++ [e] ∧
      (load e.effect_src e.options = none →
        (set_effect load P e).state = P.state ∧
          (internal_set_effect load P.state e).2 = [load_failed_error]) ∧
      (reload_shaders load P).applied_effects = P.applied_effects ∧
      (reload_shaders load P).state =
        apply_custom_shaders load (cleanup_states P.state)
          P.applied_effects := by
  refine ⟨rfl, ?_, rfl, rfl⟩
  intro h
  constructor
  · show stepState load P.state e = P.state
    simp [stepState, internal_set_effect, h]
  · simp [internal_set_effect, h]

def c8Load : LoadFn := fun _ _ => none

def c8P : RenderPipelineState := ⟨[], initial_state⟩

def c8Args : EffectArgs := ⟨1, "missing.yaml", 0, 30⟩

/-- Witness for C8 with a load function that always fails. -/
theorem c8_replay_log_monotone_witness :
    (set_effect c8Load c8P c8Args).applied_effects =
        c8P.applied_effects ++ [c8Args] ∧
      (set_effect c8Load c8P c8Args).state = c8P.state ∧
      (internal_set_effect c8Load c8P.state c8Args).2 = [load_failed_error] ∧
      (reload_shaders c8Load c8P).applied_effects = c8P.applied_effects := by
  have h := c8_replay_log_monotone c8Load c8P c8Args
  exact ⟨h.1, (h.2.1 rfl).1, (h.2.1 rfl).2, h.2.2.1⟩

/-- Python `int()` truncation toward zero, on exact rationals (the
resolution scale is a float in the source; it is modelled as an exact
rational). -/
def pytrunc (q : ℚ) : Int := if 0 ≤ q then ⌊q⌋ else ⌈q⌉

/-- Snap an integer down to the previous multiple of 4 (`w - w % 4`;
Python `%` on a positive modulus agrees with `Int.emod`). -/
def snap4 (x : Int) : Int := x - x % 4

/-- Model of `RenderPipeline._compute_render_resolution`: scale the native
resolution by `pipeline.resolution_scale`, truncate to int, and make each
axis a multiple of 4. -/
def compute_render_resolution (resolution_scale : ℚ) (native : Int × Int) :
    Int × Int :=
  (snap4 (pytrunc ((native.1 : ℚ) * resolution_scale)),
   snap4 (pytrunc ((native.2 : ℚ) * resolution_scale)))

/-- The window/resolution state mutated by `_handle_window_event`:
`_last_window_dims`, `Globals.native_resolution` and
`Globals.resolution`. -/
structure WindowState where
  last_window_dims : Int × Int
  native_resolution : Int × Int
  resolution : Int × Int
deriving DecidableEq

/-- Model of `RenderPipeline._handle_window_event`: ignore the event unless the new
dimensions differ from both `_last_window_dims` and the native resolution;
otherwise record the raw dimensions as `_last_window_dims`, snap both axes
down to multiples of 4 (the correction branch; it is the identity when the
axes already are multiples of 4), store them as the native resolution and
recompute the render resolution from them. -/
def handle_window_event (resolution_scale : ℚ) (st : WindowState)
    (window_dims : Int × Int) : WindowState :=
  if window_dims ≠ st.last_window_dims ∧
      window_dims ≠ st.native_resolution then
    { last_window_dims := window_dims,
      native_resolution := (snap4 window_dims.1, snap4 window_dims.2),
      resolution := compute_render_resolution resolution_scale
        (snap4 window_dims.1, snap4 window_dims.2) }
  else st

/-- C4 counterexample: with `resolution_scale = 2` a resize to 100x100
recomputes the internal resolution as 200x200, which is NOT bounded by the
input window dimensions. -/
theorem c4_counterexample :
    (handle_window_event 2 ⟨(0, 0), (0, 0), (0, 0)⟩ (100, 100)).resolution =
        (200, 200) ∧
      ¬((200 : Int) ≤ 100) := by
  constructor
  · norm_num [handle_window_event, compute_render_resolution, snap4, pytrunc]
  · norm_num

/-- C4 amended: a handled resize always yields an internal resolution that
is a multiple of 4 in each axis; it is bounded by the input dimensions in
each axis whenever `0 ≤ resolution_scale ≤ 1` (not for upscaling factors
above 1); and resizing twice to the same input dimensions is idempotent. -/
theorem c4_resize_amended (resolution_scale : ℚ) (st : WindowState)
    (dims : Int × Int)
    (hfire : dims ≠ st.last_window_dims ∧ dims ≠ st.native_resolution) :
    (handle_window_event resolution_scale st dims).resolution.1 % 4 = 0 ∧
      (handle_window_event resolution_scale st dims).resolution.2 % 4 = 0 ∧
      (0 ≤ resolution_scale → resolution_scale ≤ 1 →
        0 ≤ dims.1 → 0 ≤ dims.2 →
        (handle_window_event resolution_scale st dims).resolution.1 ≤ dims.1 ∧
        (handle_window_event resolution_scale st dims).resolution.2 ≤ dims.2) ∧
      handle_window_event resolution_scale
          (handle_window_event resolution_scale st dims) dims =
        handle_window_event resolution_scale st dims := by
  have hb : ∀ (scale : ℚ) (w : Int), 0 ≤ scale → scale ≤ 1 → 0 ≤ w →
      snap4 (pytrunc ((snap4 w : ℚ) * scale)) ≤ w := by
    intro scale w h0 h1 hw
    have hsw : (0 : Int) ≤ snap4 w := by unfold snap4; omega
    have hsww : snap4 w ≤ w := by unfold snap4; omega
    have hq0 : (0 : ℚ) ≤ (snap4 w : ℚ) * scale :=
      mul_nonneg (by exact_mod_cast hsw) h0
    have hle : (snap4 w : ℚ) * scale ≤ (snap4 w : ℚ) :=
      mul_le_of_le_one_right (by exact_mod_cast hsw) h1
    have htr : pytrunc ((snap4 w : ℚ) * scale) ≤ snap4 w := by
      unfold pytrunc
      rw [if_pos hq0]
      calc ⌊(snap4 w : ℚ) * scale⌋ ≤ ⌊((snap4 w : Int) : ℚ)⌋ :=
            Int.floor_le_floor hle
        _ = snap4 w := Int.floor_intCast _
    have : snap4 (pytrunc ((snap4 w : ℚ) * scale)) ≤
        pytrunc ((snap4 w : ℚ) * scale) := by unfold snap4; omega
    omega
  rw [handle_window_event, if_pos hfire]
  refine ⟨?_, ?_, ?_, ?_⟩
  · show snap4 _ % 4 = 0
    unfold snap4; omega
  · show snap4 _ % 4 = 0
    unfold snap4; omega
  · intro h0 h1 hw1 hw2
    exact ⟨hb resolution_scale dims.1 h0 h1 hw1,
      hb resolution_scale dims.2 h0 h1 hw2⟩
  · rw [handle_window_event, if_neg]
    intro hc
    exact hc.1 rfl

/-- Witness for the amended C4 at scale 1/2 and input 100x100. -/
theorem c4_resize_amended_witness :
    (handle_window_event (1/2) ⟨(0, 0), (0, 0), (0, 0)⟩
        (100, 100)).resolution.1 % 4 = 0 ∧
      (handle_window_event (1/2) ⟨(0, 0), (0, 0), (0, 0)⟩
        (100, 100)).resolution.2 % 4 = 0 ∧
      ((handle_window_event (1/2) ⟨(0, 0), (0, 0), (0, 0)⟩
          (100, 100)).resolution.1 ≤ 100 ∧
        (handle_window_event (1/2) ⟨(0, 0), (0, 0), (0, 0)⟩
          (100, 100)).resolution.2 ≤ 100) ∧
      handle_window_event (1/2)
          (handle_window_event (1/2) ⟨(0, 0), (0, 0), (0, 0)⟩ (100, 100))
          (100, 100) =
        handle_window_event (1/2) ⟨(0, 0), (0, 0), (0, 0)⟩ (100, 100) := by
  have h := c4_resize_amended (1/2) ⟨(0, 0), (0, 0), (0, 0)⟩ (100, 100)
    (by decide)
  exact ⟨h.1, h.2.1,
    h.2.2.1 (by norm_num) (by norm_num) (by norm_num) (by norm_num),
    h.2.2.2⟩

/-- Check of `pth.endswith(".glsl")` on the final path segment (paths are
modelled as lists of path segments; the suffix test compares the last five
characters of the final segment). -/
def ends_with_glsl (s : String) : Bool :=
  decide (s.data.reverse.take 5 = ['l', 's', 'l', 'g', '.'])

/-- Model of `EventHandler.on_modified` of `_initialize_plugin_watchdog`: a changed
path outside the plugins root is ignored (an error is logged), a path not
naming a `.glsl` file is ignored, and otherwise the first path segment
below the root — the plugin id — is inserted into the deduplicating pending
set `_queued_plugin_reloads`. -/
def on_modified (base_path : List String) (pending : Finset String)
    (pth : List String) : Finset String :=
  if base_path.isPrefixOf pth then
    if ends_with_glsl (pth.getLastD "") then
      match pth.drop base_path.length with
      | [] => pending
      | plugin_id :: _ => insert plugin_id pending
    else pending
  else pending

/-- The plugin id a change notification resolves to, if any (the write
performed by `on_modified`). -/
def notice_plugin (base_path : List String) (pth : List String) :
    Option String :=
  if base_path.isPrefixOf pth then
    if ends_with_glsl (pth.getLastD "") then
      (pth.drop base_path.length).head?
    else none
  else none

/-- Model of `RenderPipeline._process_plugin_reload_queue`: swap the pending set for
an empty one, then reload each drained id once, skipping (with a warning)
ids that are not registered plugins.  The first component is the multiset
of plugin reloads performed, the second the new pending set. -/
def process_plugin_reload_queue (instances : Finset String)
    (pending : Finset String) : Multiset String × Finset String :=
  ((pending.filter (fun pid => pid ∈ instances)).val, ∅)

lemma on_modified_eq (base_path : List String) (pending : Finset String)
    (pth : List String) :
    on_modified base_path pending pth =
      match notice_plugin base_path pth with
      | some pid => insert pid pending
      | none => pending := by
  unfold on_modified notice_plugin
  by_cases h1 : base_path.isPrefixOf pth = true
  · rw [if_pos h1, if_pos h1]
    by_cases h2 : ends_with_glsl (pth.getLastD "") = true
    · rw [if_pos h2, if_pos h2]
      cases hd : pth.drop base_path.length with
      | nil => rfl
      | cons a t => rfl
    · rw [if_neg h2, if_neg h2]
  · rw [if_neg h1, if_neg h1]

lemma mem_foldl_on_modified (base_path : List String)
    (notifs : List (List String)) :
    ∀ (s : Finset String) (q : String),
      q ∈ notifs.foldl (on_modified base_path) s ↔
        q ∈ s ∨ ∃ p ∈ notifs, notice_plugin base_path p = some q := by
  induction notifs with
  | nil => intro s q; simp
  | cons pth t ih =>
    intro s q
    rw [List.foldl_cons, ih, on_modified_eq]
    cases h : notice_plugin base_path pth with
    | none => simp [h]
    | some pid =>
      simp only [h, Finset.mem_insert, List.mem_cons]
      constructor
      · rintro (⟨hq | hq⟩ | ⟨p, hp, hnp⟩)
        · exact Or.inr ⟨pth, Or.inl rfl, by rw [h, hq]⟩
        · exact Or.inl hq
        · exact Or.inr ⟨p, Or.inr hp, hnp⟩
      · rintro (hq | ⟨p, hp | hp, hnp⟩)
        · exact Or.inl (Or.inr hq)
        · rw [hp, h] at hnp
          exact Or.inl (Or.inl (Option.some_injective _ hnp).symm)
        · exact Or.inr ⟨p, hp, hnp⟩

/-- C5: between two drains, any number of change notifications resolving to
the same registered plugin produce exactly one reload of it at the next
drain; a plugin no notification resolves to is not reloaded; and the drain
leaves the pending set empty. -/
theorem c5_plugin_reload_dedup (base_path : List String)
    (instances : Finset String) (notifs : List (List String)) (q : String)
    (hq : q ∈ instances) :
    ((∃ p ∈ notifs, notice_plugin base_path p = some q) →
        (process_plugin_reload_queue instances
          (notifs.foldl (on_modified base_path) ∅)).1.count q = 1) ∧
      ((¬∃ p ∈ notifs, notice_plugin base_path p = some q) →
        (process_plugin_reload_queue instances
          (notifs.foldl (on_modified base_path) ∅)).1.count q = 0) ∧
      (process_plugin_reload_queue instances
        (notifs.foldl (on_modified base_path) ∅)).2 = ∅ := by
  refine ⟨?_, ?_, rfl⟩
  · intro hex
    have hmem : q ∈ notifs.foldl (on_modified base_path) ∅ := by
      rw [mem_foldl_on_modified]
      exact Or.inr hex
    have hmemf : q ∈ (notifs.foldl (on_modified base_path) ∅).filter
        (fun pid => pid ∈ instances) :=
      Finset.mem_filter.mpr ⟨hmem, hq⟩
    exact Multiset.count_eq_one_of_mem (Finset.nodup _)
      (Finset.mem_val.mpr hmemf)
  · intro hnex
    have hmem : q ∉ notifs.foldl (on_modified base_path) ∅ := by
      rw [mem_foldl_on_modified]
      rintro (hc | hc)
      · exact absurd hc (Finset.not_mem_empty q)
      · exact hnex hc
    refine Multiset.count_eq_zero_of_not_mem ?_
    intro hc
    exact hmem (Finset.mem_filter.mp (Finset.mem_val.mp hc)).1

def c5Base : List String := ["vfs", "rpplugins"]

def c5Instances : Finset String := {"scattering"}

def c5Notifs : List (List String) :=
  [["vfs", "rpplugins", "scattering", "shader", "a.glsl"],
   ["vfs", "rpplugins", "scattering", "shader", "b.glsl"]]

/-- Witness for C5: two notifications for the same plugin in one frame
produce exactly one reload. -/
theorem c5_plugin_reload_dedup_witness :
    (process_plugin_reload_queue c5Instances
        (c5Notifs.foldl (on_modified c5Base) ∅)).1.count "scattering" = 1 ∧
      (process_plugin_reload_queue c5Instances
        (c5Notifs.foldl (on_modified c5Base) ∅)).2 = ∅ := by
  have h := c5_plugin_reload_dedup c5Base c5Instances c5Notifs "scattering"
    (by decide)
  exact ⟨h.1 (by decide), h.2.2⟩

/-- The render stage classes instantiated by `_init_common_stages`. -/
inductive StageType
  | AmbientStage
  | GBufferStage
  | FinalStage
  | ConvertDepthStage
  | CombineVelocityStage
  | ComputeLowPrecisionNormalsStage
  | MenuBlurStage
  | UpscaleStage
  | SRGBCorrectionStage
  | ReferenceStage
deriving DecidableEq

/-- Model of `RenderPipeline._init_common_stages`: the seven always-present builtin
stages, plus the upscale stage when the configured resolution scale
deviates from 1 by more than 0.005, plus the SRGB correction stage when the
`color_correction` plugin is not enabled, plus the reference stage when
`pipeline.reference_mode` is set. -/
def init_common_stages (resolution_scale : ℚ)
    (color_correction_enabled : Bool) (reference_mode : Bool) :
    List StageType :=
  let builtin_stages : List StageType :=
    [StageType.AmbientStage, StageType.GBufferStage, StageType.FinalStage,
     StageType.ConvertDepthStage, StageType.CombineVelocityStage,
     StageType.ComputeLowPrecisionNormalsStage, StageType.MenuBlurStage]
  let builtin_stages :=
    if |1 - resolution_scale| > 0.005 then
      builtin_stages ++ [StageType.UpscaleStage]
    else builtin_stages
  let builtin_stages :=
    if !color_correction_enabled then
      builtin_stages ++ [StageType.SRGBCorrectionStage]
    else builtin_stages
  let builtin_stages :=
    if reference_mode then
      builtin_stages ++ [StageType.ReferenceStage]
    else builtin_stages
  builtin_stages

/-- C7: stage activation at assembly time is configuration-driven — the
upscale stage is present iff the resolution scale deviates from 1 by more
than 0.005, the SRGB correction stage iff the color_correction plugin is
not enabled, and the reference stage iff reference mode is set. -/
theorem c7_stage_activation (resolution_scale : ℚ)
    (color_correction_enabled reference_mode : Bool) :
    (StageType.UpscaleStage ∈
        init_common_stages resolution_scale color_correction_enabled
          reference_mode ↔ |1 - resolution_scale| > 0.005) ∧
      (StageType.SRGBCorrectionStage ∈
        init_common_stages resolution_scale color_correction_enabled
          reference_mode ↔ color_correction_enabled = false) ∧
      (StageType.ReferenceStage ∈
        init_common_stages resolution_scale color_correction_enabled
          reference_mode ↔ reference_mode = true) := by
  unfold init_common_stages
  cases color_correction_enabled <;> cases reference_mode <;>
    split_ifs <;> simp_all

/-- The menu-related pipeline state mutated by `enter_menu` / `exit_menu`:
the `_rendering_enabled` flag, whether the stage manager is paused, whether
the menu blur stage is enabled, and the logged errors. -/
structure MenuState where
  rendering_enabled : Bool
  stage_paused : Bool
  blur_enabled : Bool
  errors : List String
deriving DecidableEq

/-- Error logged by `enter_menu` when rendering is already paused. -/
def enter_menu_error : String := "Already in menu, cannot call enter_menu again!"

/-- Error logged by `exit_menu` when rendering is not paused. -/
def exit_menu_error : String := "Not in menu, cannot call exit_menu!"

/-- Model of `RenderPipeline.enter_menu`: if rendering is already disabled, log an
error and return; otherwise disable rendering, pause the stage manager and
enable the menu blur. -/
def enter_menu (s : MenuState) : MenuState :=
  if !s.rendering_enabled then
    { s with errors := s.errors ++ [enter_menu_error] }
  else
    { s with
        rendering_enabled := false
        stage_paused := true
        blur_enabled := true }

/-- Model of `RenderPipeline.exit_menu`: if rendering is enabled, log an error and
return; otherwise resume the stage manager, disable the blur and re-enable
rendering. -/
def exit_menu (s : MenuState) : MenuState :=
  if s.rendering_enabled then
    { s with errors := s.errors ++ [exit_menu_error] }
  else
    { s with
        stage_paused := false
        blur_enabled := false
        rendering_enabled := true }

/-- C9: `enter_menu` while already paused and `exit_menu` while not paused
each log an error and change nothing else; successful calls flip the
rendering flag, so it only transitions via strictly alternating successful
enter/exit calls. -/
theorem c9_menu_guards (s : MenuState) :
    (s.rendering_enabled = false →
        enter_menu s = { s with errors := s.errors ++ [enter_menu_error] }) ∧
      (s.rendering_enabled = true →
        exit_menu s = { s with errors := s.errors ++ [exit_menu_error] }) ∧
      (s.rendering_enabled = true →
        (enter_menu s).rendering_enabled = false) ∧
      (s.rendering_enabled = false →
        (exit_menu s).rendering_enabled = true) := by
  refine ⟨?_, ?_, ?_, ?_⟩ <;> intro h <;> simp [enter_menu, exit_menu, h]

/-- Witness for C9 at concrete states on both sides of the guard. -/
theorem c9_menu_guards_witness :
    enter_menu ⟨false, true, true, []⟩ =
        ⟨false, true, true, [enter_menu_error]⟩ ∧
      exit_menu ⟨true, false, false, []⟩ =
        ⟨true, false, false, [exit_menu_error]⟩ ∧
      (enter_menu ⟨true, false, false, []⟩).rendering_enabled = false ∧
      (exit_menu ⟨false, true, true, []⟩).rendering_enabled = true := by
  refine ⟨?_, ?_, ?_, ?_⟩
  · exact (c9_menu_guards ⟨false, true, true, []⟩).1 rfl
  · exact (c9_menu_guards ⟨true, false, false, []⟩).2.1 rfl
  · exact (c9_menu_guards ⟨true, false, false, []⟩).2.2.1 rfl
  · exact (c9_menu_guards ⟨false, true, true, []⟩).2.2.2 rfl

/-- A texture handle: the color texture of a named render target
(`target["color"]`). -/
inductive TexHandle
  | targetColor (targetName : String)
deriving DecidableEq

/-- A render target as set up by `SharpenStage.create`: its name, the bit
depth of its color attachment and its shader inputs. -/
structure TargetDef where
  name : String
  colorBits : Nat
  shaderInputs : List (String × TexHandle)
deriving DecidableEq

/-- Model of `SharpenStage` of the color_correction plugin; the constructor sets
`sharpen_twice = True`. -/
structure SharpenStage where
  sharpen_twice : Bool := true

/-- Model of `SharpenStage.required_pipes`. -/
def SharpenStage.required_pipes : List String := ["ShadedScene"]

/-- Model of `SharpenStage.produced_pipes`: the `ShadedScene` pipe is rewritten in
place — it maps to the second sharpen target's color when `sharpen_twice`
is set, and to the first target's color otherwise. -/
def SharpenStage.produced_pipes (s : SharpenStage) :
    List (String × TexHandle) :=
  if s.sharpen_twice then
    [("ShadedScene", TexHandle.targetColor "Sharpen2")]
  else
    [("ShadedScene", TexHandle.targetColor "Sharpen")]

/-- Model of `SharpenStage.create`: always make the `Sharpen` target with a 16-bit
color attachment; when `sharpen_twice` is set, additionally make the
`Sharpen2` target and wire the first target's color texture as its
`ShadedScene` shader input. -/
def SharpenStage.create (s : SharpenStage) : List TargetDef :=
  if s.sharpen_twice then
    [⟨"Sharpen", 16, []⟩,
     ⟨"Sharpen2", 16, [("ShadedScene", TexHandle.targetColor "Sharpen")]⟩]
  else
    [⟨"Sharpen", 16, []⟩]

/-- C10: SharpenStage requires and produces the `ShadedScene` pipe; it
produces the second target's color exactly when `sharpen_twice` holds (the
constructor default) and the first target's color otherwise; with
`sharpen_twice` set, `create` wires the first target's color as the second
target's `ShadedScene` input. -/
theorem c10_sharpen_stage_pipes :
    SharpenStage.required_pipes = ["ShadedScene"] ∧
      ({} : SharpenStage).sharpen_twice = true ∧
      (∀ s : SharpenStage,
        s.produced_pipes =
          if s.sharpen_twice then
            [("ShadedScene", TexHandle.targetColor "Sharpen2")]
          else
            [("ShadedScene", TexHandle.targetColor "Sharpen")]) ∧
      (∀ s : SharpenStage,
        s.create =
          if s.sharpen_twice then
            [⟨"Sharpen", 16, []⟩,
             ⟨"Sharpen2", 16,
               [("ShadedScene", TexHandle.targetColor "Sharpen")]⟩]
          else
            [⟨"Sharpen", 16, []⟩]) := by
  exact ⟨rfl, rfl, fun s => rfl, fun s => rfl⟩
